import Mathlib

/-!
Verification of the Code-Conductor task coordination engine.

This file gives a shallow embedding of the coordination core of the
repository — the task matcher and remote claim flow of
`.conductor/scripts/task-claim.py`, the local-file claim transaction of the
`task-claim.py` script generated by
`.conductor/conductor_setup/file_generators/script_files.py`, the staleness
sweep of `.conductor/scripts/cleanup-stale.py`, the health scores of
`.conductor/scripts/update-status.py` and
`.conductor/scripts/generate-summary.py`, and the archive command of
`.conductor/scripts/archive-completed.py` — and proves or refutes the
specification's claims about them.

Modelling conventions: timestamps are `Int` seconds; Python strings are
`String`; Python `pat in s` (substring) is `strContains`; Python dicts that
the code uses as ordered maps are association lists with the dict's
replace-in-place insertion semantics; subprocess calls to the `gh` CLI are
reified as command values interpreted against an explicit store state.
-/

namespace Conductor

/-- Python `pat in l` on character lists: `pat` occurs as a contiguous
sublist of `l`. -/
def listContains (pat : List Char) : List Char → Bool
  | [] => pat.isEmpty
  | c :: cs => pat.isPrefixOf (c :: cs) || listContains pat cs

/-- Python `pat in s` for strings: substring containment. -/
def strContains (s pat : String) : Bool :=
  listContains pat.toList s.toList

/-- Python `str.lower()` restricted to its ASCII action, as a character
list (`Char.toLower` lowers exactly the ASCII range, like `str.lower`
does on ASCII input). -/
def pyLower (s : String) : List Char :=
  s.toList.map Char.toLower

/-- Substring test against an already-lowercased character list. -/
def containsKw (l : List Char) (pat : String) : Bool :=
  listContains pat.toList l

namespace TaskClaim

/-- A task as `get_available_tasks` in `task-claim.py` builds it from a
GitHub issue: `id`, `title`, `description`, plus `required_skills`,
`estimated_effort` and `priority` extracted from `skill:`/`effort:`/
`priority:` labels (defaults `[]`, `"medium"`, `"medium"`). -/
structure Task where
  id : String
  title : String
  description : String
  required_skills : List String
  estimated_effort : String
  priority : String
deriving DecidableEq, Repr

/-- The `role_affinities` table of `find_suitable_task` (task-claim.py
lines 91-100); a role absent from the Python dict gets the empty list,
matching the `if role in role_affinities` guard. -/
def role_affinities (role : String) : List String :=
  if role = "frontend" then ["ui-designer", "ui", "react", "vue", "angular", "css"]
  else if role = "backend" then ["api", "database", "server", "devops"]
  else if role = "devops" then ["infrastructure", "ci-cd", "deployment", "monitoring"]
  else if role = "security" then ["auth", "authentication", "vulnerability", "audit"]
  else if role = "ml-engineer" then ["ml", "ai", "data-science", "model", "training"]
  else if role = "data" then ["etl", "pipeline", "analytics", "database"]
  else if role = "mobile" then ["ios", "android", "react-native", "flutter"]
  else if role = "ui-designer" then ["design", "ux", "frontend", "css", "accessibility"]
  else []

/-- `priority_scores.get(task.get("priority", "medium"), 10)`
(task-claim.py lines 141-142). -/
def priorityScore (p : String) : Nat :=
  if p = "critical" then 30
  else if p = "high" then 20
  else if p = "medium" then 10
  else if p = "low" then 5
  else 10

/-- `effort_scores.get(task.get("estimated_effort", "medium"), 10)`
(task-claim.py lines 145-146). -/
def effortScore (e : String) : Nat :=
  if e = "small" then 15
  else if e = "medium" then 10
  else if e = "large" then 5
  else 10

/-- The affinity loop of `find_suitable_task` (lines 122-129): for each
affinity keyword of the role, +30 when it is one of the task's required
skills and +20 when it occurs in the lowercased title or description. -/
def affinityScore (role : String) (skills : List String) (titleL descL : List Char) : Nat :=
  (role_affinities role).foldl
    (fun acc a =>
      acc + (if skills.contains a then 30 else 0)
        + (if containsKw titleL a || containsKw descL a then 20 else 0))
    0

/-- The score `find_suitable_task` computes for one task
(task-claim.py lines 105-146); `title_lower` and `desc_lower` are the
lowercased title and description. -/
def scoreTask (role : String) (t : Task) : Nat :=
  (if t.required_skills.contains role then 100 else 0)
    + (if t.required_skills.isEmpty then (if role = "dev" then 50 else 10) else 0)
    + affinityScore role t.required_skills (pyLower t.title) (pyLower t.description)
    + (if containsKw (pyLower t.title) "init"
          || containsKw (pyLower t.title) "initialization"
          || containsKw (pyLower t.title) "discovery" then 80 else 0)
    + priorityScore t.priority
    + effortScore t.estimated_effort

/-- Python's stable `sort(key=score, reverse=True)` followed by `[0]`:
the first pair of the list attaining the maximal score. -/
def pickFirstMax : List (Nat × Task) → Option (Nat × Task)
  | [] => none
  | x :: xs => some (xs.foldl (fun best y => if best.1 < y.1 then y else best) x)

/-- `find_suitable_task(tasks, role)` (task-claim.py lines 85-158):
score every task, drop non-positive scores, stable-sort descending by
score and return the first task (or `None`). -/
def find_suitable_task (tasks : List Task) (role : String) : Option Task :=
  if tasks.isEmpty then none
  else
    let scored_tasks := (tasks.map (fun t => (scoreTask role t, t))).filter
      (fun st => 0 < st.1)
    match pickFirstMax scored_tasks with
    | none => none
    | some st => some st.2

/-- The metadata block `claim_task` posts inside its comment
(task-claim.py lines 171-178). -/
structure AgentMetadata where
  agent_id : String
  role : String
  status : String
  claimed_at : Int
  heartbeat : Int
  worktree_path : String
deriving DecidableEq, Repr

/-- One `gh` CLI invocation of the remote claim flow. `readIssue` is the
only command that reads the store (`gh issue view`); the others mutate it. -/
inductive GhCmd where
  | addAssignee (issue : String) (who : String)
  | postComment (issue : String) (meta : AgentMetadata)
  | addLabel (issue : String) (label : String)
  | readIssue (issue : String)
deriving DecidableEq, Repr

/-- Whether a command reads the store rather than writing it. -/
def GhCmd.isRead : GhCmd → Bool
  | .readIssue _ => true
  | _ => false

/-- The exact sequence of `gh` commands `claim_task(task, role)` issues,
with the agent id and metadata it constructs (task-claim.py lines
161-191): assign the issue to self, post the metadata comment, add the
`conductor:in-progress` label. `uuidSuffix` stands for
`uuid.uuid4().hex[:8]` and `now` for `datetime.utcnow()`. -/
def claim_task_cmds (t : Task) (role : String) (uuidSuffix : String) (now : Int) :
    List GhCmd × String × AgentMetadata :=
  let agent_id := role ++ "_" ++ uuidSuffix
  let meta : AgentMetadata :=
    { agent_id := agent_id, role := role, status := "claimed",
      claimed_at := now, heartbeat := now,
      worktree_path := "./worktrees/agent-" ++ role ++ "-" ++ t.id }
  ([GhCmd.addAssignee t.id "@me", GhCmd.postComment t.id meta,
    GhCmd.addLabel t.id "conductor:in-progress"], agent_id, meta)

/-- The state of the remote issue the claim targets: GitHub's
`--add-assignee`/`comment`/`--add-label` all append. -/
structure RemoteIssue where
  number : String
  assignees : List String
  labels : List String
  comments : List AgentMetadata
deriving DecidableEq, Repr

/-- Effect of one `gh` command on the remote issue. -/
def applyCmd (iss : RemoteIssue) : GhCmd → RemoteIssue
  | .addAssignee n who =>
    if n = iss.number then { iss with assignees := iss.assignees ++ [who] } else iss
  | .postComment n m =>
    if n = iss.number then { iss with comments := iss.comments ++ [m] } else iss
  | .addLabel n l =>
    if n = iss.number then { iss with labels := iss.labels ++ [l] } else iss
  | .readIssue _ => iss

/-- Run a command sequence against the issue with a success oracle `ok`:
`run_gh_command` (task-claim.py lines 13-27) prints a structured error and
calls `sys.exit(1)` on the first failing command, so execution stops
there; the `Bool` tells whether every command succeeded. -/
def runCmds (iss : RemoteIssue) (ok : GhCmd → Bool) : List GhCmd → RemoteIssue × Bool
  | [] => (iss, true)
  | c :: cs => if ok c then runCmds (applyCmd iss c) ok cs else (iss, false)

/-- The single structured result object a CLI invocation prints, with the
process exit code. -/
structure CliResult where
  status : String
  exitCode : Nat
deriving DecidableEq, Repr

/-- The automatic-claim path of `main` (task-claim.py lines 264-294):
match a task from the (possibly stale) pool view, and if one is found run
`claim_task`'s three `gh` commands against the store. No retry loop
exists: a failing command exits 1 with status `ERROR` at once, a missing
candidate exits 0 with status `IDLE`, and a completed command sequence
exits 0 with status `claimed`. -/
def mainAuto (pool : List Task) (role : String) (store : RemoteIssue)
    (ok : GhCmd → Bool) (uuidSuffix : String) (now : Int) : CliResult × RemoteIssue :=
  match find_suitable_task pool role with
  | none => (⟨"IDLE", 0⟩, store)
  | some t =>
    let (cmds, _agent_id, _meta) := claim_task_cmds t role uuidSuffix now
    match runCmds store ok cmds with
    | (store1, true) => (⟨"claimed", 0⟩, store1)
    | (store1, false) => (⟨"ERROR", 1⟩, store1)

end TaskClaim

namespace LocalBackend

/-- A task of the local state file's `available_tasks` array, as the
generated `task-claim.py` (script_files.py lines 126-244) reads it:
only `id`, `required_skills` and `files_locked` are consulted. -/
structure LTask where
  id : String
  required_skills : List String
  files_locked : List String
deriving DecidableEq, Repr

/-- The value `claim_task` stores under `active_work[agent_id]`
(script_files.py lines 178-184). -/
structure WorkEntry where
  task : LTask
  status : String
  started_at : Int
  heartbeat : Int
  files_locked : List String
deriving DecidableEq, Repr

/-- The `.conductor/state.json` document. `active_work` is a Python dict
keyed by agent id, modelled as an association list in insertion order. -/
structure ConductorState where
  available_tasks : List LTask
  active_work : List (String × WorkEntry)
  active_agents : Nat
  last_updated : Int
deriving DecidableEq, Repr

/-- `TaskClaimer._has_file_conflicts` (script_files.py lines 214-225):
a task conflicts when its `files_locked` set intersects the locked files
of some entry of `active_work` (an empty set never conflicts). -/
def has_file_conflicts (t : LTask) (st : ConductorState) : Bool :=
  if t.files_locked.isEmpty then false
  else st.active_work.any (fun kw => t.files_locked.any (fun f => kw.2.files_locked.contains f))

/-- The claim loop of `TaskClaimer.claim_task` (lines 158-170): walk
`available_tasks` in order, take the first task whose skills allow the
role (`not required_skills or role in required_skills`) and that has no
file conflict; return it with the list as `pop(i)` leaves it. -/
def findClaimable (role : String) (st : ConductorState) :
    List LTask → Option (LTask × List LTask)
  | [] => none
  | t :: ts =>
    if (t.required_skills.isEmpty || t.required_skills.contains role)
        && !(has_file_conflicts t st) then
      some (t, ts)
    else
      match findClaimable role st ts with
      | some (c, rest) => some (c, t :: rest)
      | none => none

/-- Python-dict insertion on the association list: an existing key keeps
its position and gets the new value, a fresh key is appended. -/
def dictInsert : List (String × WorkEntry) → String → WorkEntry → List (String × WorkEntry)
  | [], k, v => [(k, v)]
  | p :: ps, k, v => if p.1 = k then (k, v) :: ps else p :: dictInsert ps k v

/-- Agent id `f"{role}_{int(datetime.utcnow().timestamp())}"`
(script_files.py line 173). -/
def mkAgentId (role : String) (now : Int) : String :=
  role ++ "_" ++ toString now

/-- The structured result `claim_task` returns. -/
structure ClaimOutcome where
  status : String
  task_id : Option String
  agent_id : Option String
deriving DecidableEq, Repr

/-- `TaskClaimer.claim_task` (script_files.py lines 142-212) on a loaded
state document, inside the exclusive `flock`: find a claimable task, pop
it from `available_tasks`, insert the new `active_work` entry (locking the
task's `files_locked`), refresh `system_status`, and report `claimed`;
report `IDLE` when no task qualifies. The whole mutation happens in the
one locked read-modify-write. -/
def claim_task (role : String) (now : Int) (st : ConductorState) :
    ClaimOutcome × ConductorState :=
  match findClaimable role st st.available_tasks with
  | some (claimed, rest) =>
    let agent_id := mkAgentId role now
    let entry : WorkEntry :=
      { task := claimed, status := "in_progress", started_at := now,
        heartbeat := now, files_locked := claimed.files_locked }
    let active := dictInsert st.active_work agent_id entry
    (⟨"claimed", some claimed.id, some agent_id⟩,
      { available_tasks := rest, active_work := active,
        active_agents := active.length, last_updated := now })
  | none => (⟨"IDLE", none, none⟩, st)

/-- The at-most-one-claim state invariant of claim C1, exactly as the
claim words it: no task id occurs both in `available_tasks` and in an
`active_work` entry, and no task id occurs in two distinct `active_work`
entries. -/
def TaskIdsOK (st : ConductorState) : Prop :=
  (∀ t ∈ st.available_tasks, ∀ p ∈ st.active_work, t.id ≠ p.2.task.id) ∧
  st.active_work.Pairwise (fun a b => a.2.task.id ≠ b.2.task.id)

/-- No task id occurs twice inside `available_tasks` itself. -/
def AvailNodup (st : ConductorState) : Prop :=
  (st.available_tasks.map LTask.id).Nodup

/-- The locked-resources invariant of claim C9: the `files_locked` lists
of the `active_work` entries are pairwise disjoint. -/
def FilesDisjoint (st : ConductorState) : Prop :=
  st.active_work.Pairwise (fun a b => ∀ f ∈ a.2.files_locked, f ∉ b.2.files_locked)

end LocalBackend

namespace StaleCleaner

/-- A GitHub issue comment as cleanup-stale.py inspects it. `agentMeta`
stands for the result of the fenced-`json` extraction of lines 100-108:
`some a` when the body carries a parseable metadata block (`a` being
`metadata.get("agent_id", "unknown")`), `none` otherwise. -/
structure GComment where
  body : String
  createdAt : Int
  agentMeta : Option String
deriving DecidableEq, Repr

/-- The default `timeout_minutes=30` of `StaleCleaner.__init__`
(cleanup-stale.py lines 13-15). -/
def defaultTimeoutMinutes : Nat := 30

/-- The activity markers of `check_issue_staleness` line 90. -/
def activityMarkers : List String :=
  ["Agent Claimed Task", "Heartbeat", "Progress"]

/-- `any(marker in body for marker in [...])` (lines 88-91). -/
def hasActivityMarker (body : String) : Bool :=
  activityMarkers.any (fun m => strContains body m)

/-- The loop state of `check_issue_staleness`: `latest_activity` and
`agent_info`. -/
structure ScanState where
  latest : Option Int
  agent : Option String
deriving DecidableEq, Repr

/-- One iteration of the comment loop (lines 81-110): a marker comment
strictly newer than the tracked latest activity becomes the new latest,
and the agent info is refreshed from its metadata block when one parses
(otherwise the previous value is kept). -/
def scanComment (st : ScanState) (c : GComment) : ScanState :=
  if hasActivityMarker c.body then
    match st.latest with
    | none =>
      { latest := some c.createdAt,
        agent := match c.agentMeta with | some a => some a | none => st.agent }
    | some t =>
      if c.createdAt > t then
        { latest := some c.createdAt,
          agent := match c.agentMeta with | some a => some a | none => st.agent }
      else st
  else st

/-- `StaleCleaner.check_issue_staleness` (cleanup-stale.py lines 58-116)
on the fetched comment list: returns `(is_stale, last_activity,
agent_info)`. With a latest activity `t`, stale iff `now - t >
timeout`; with no marker found at all (in particular with no comments),
stale immediately. `timeoutMinutes` is the `timedelta(minutes=...)`,
compared in seconds. -/
def check_issue_staleness (comments : List GComment) (now : Int)
    (timeoutMinutes : Nat) : Bool × Option Int × Option String :=
  match comments.foldl scanComment ⟨none, none⟩ with
  | ⟨some t, agent⟩ =>
    (decide (now - t > (timeoutMinutes : Int) * 60), some t, agent)
  | ⟨none, _⟩ => (true, none, none)

/-- The creation times of the comments carrying an activity marker. -/
def markerTimes (comments : List GComment) : List Int :=
  (comments.filter (fun c => hasActivityMarker c.body)).map GComment.createdAt

/-- Specification-level last activity: the most recent activity-marker
time among the inspected comments. -/
def lastActivity (comments : List GComment) : Option Int :=
  (markerTimes comments).max?

/-- The `agent_info` value `check_issue_staleness` reports for a comment
list. -/
def agentInfo (comments : List GComment) : Option String :=
  (comments.foldl scanComment ⟨none, none⟩).agent

/-- An assigned issue as `clean_stale_issue` receives it, together with
the comments `check_issue_staleness` fetches for it. -/
structure GIssue where
  number : Nat
  title : String
  assignees : List String
  comments : List GComment
deriving DecidableEq, Repr

/-- A mutation the stale sweep performs on the tracker. -/
inductive CleanupEffect where
  | removeAssignee (issue : Nat) (login : String)
  | removeLabel (issue : Nat) (label : String)
  | postNotice (issue : Nat) (lastActivityAt : Option Int) (agent : Option String)
deriving DecidableEq, Repr

/-- `StaleCleaner.clean_stale_issue` (cleanup-stale.py lines 118-182):
check staleness; a non-stale issue returns `False` with no effect; a
stale one has every assignee removed, the `conductor:in-progress` label
removed, and a cleanup notice posted recording the last-known activity
time and the agent info. -/
def clean_stale_issue (iss : GIssue) (now : Int) (timeoutMinutes : Nat) :
    Bool × List CleanupEffect :=
  let r := check_issue_staleness iss.comments now timeoutMinutes
  if !r.1 then (false, [])
  else
    (true,
      iss.assignees.map (CleanupEffect.removeAssignee iss.number) ++
        [CleanupEffect.removeLabel iss.number "conductor:in-progress",
         CleanupEffect.postNotice iss.number r.2.1 r.2.2])

end StaleCleaner

namespace UpdateStatus

/-- Python truthiness of a boolean as a summand. -/
def b2q (b : Bool) : ℚ := if b then 1 else 0

/-- The four health booleans of `collect_metrics` (update-status.py lines
244-258): available tasks exist, active agents exist, the stale ratio is
under 30% (vacuously true with no agents), and there is recent activity
(a completion in 24h or an active agent). The `0.3` multiplier is
modelled as the exact rational 3/10. -/
structure HealthSignals where
  has_available_tasks : Bool
  has_active_agents : Bool
  low_stale : Bool
  recent_activity : Bool
deriving DecidableEq, Repr

/-- The signals as computed from the counted metrics. -/
def healthSignals (available active stale completions_24h : Nat) : HealthSignals :=
  { has_available_tasks := decide (0 < available)
    has_active_agents := decide (0 < active)
    low_stale :=
      if 0 < active then decide ((stale : ℚ) < (active : ℚ) * (3 / 10)) else true
    recent_activity := decide (0 < completions_24h) || decide (0 < active) }

/-- How many of the four signals hold. -/
def signalCount (s : HealthSignals) : Nat :=
  (if s.has_available_tasks then 1 else 0) + (if s.has_active_agents then 1 else 0)
    + (if s.low_stale then 1 else 0) + (if s.recent_activity then 1 else 0)

/-- `sum(health_checks) / len(health_checks)` over the four booleans
(update-status.py lines 256-258). -/
def scoreOfSignals (s : HealthSignals) : ℚ :=
  (b2q s.has_available_tasks + b2q s.has_active_agents + b2q s.low_stale
    + b2q s.recent_activity) / 4

/-- The health score of `collect_metrics` (update-status.py lines
244-259). The subsequent `round(score, 2)` is the identity on every
reachable value (multiples of 1/4) and is omitted. -/
def health_score (available active stale completions_24h : Nat) : ℚ :=
  scoreOfSignals (healthSignals available active stale completions_24h)

end UpdateStatus

namespace GenerateSummary

/-- `calculate_health_score(metrics)` of generate-summary.py (lines
95-122): weights 0.3 / 0.3 / 0.2 / 0.2 (exact rationals here), a stale
ratio threshold of 20% — granted outright when no agent is active — and
recent activity counting only completions in the last 24h. -/
def calculate_health_score (available_tasks active_agents stale_agents
    completions_24h : Nat) : ℚ :=
  (if 0 < available_tasks then (3 / 10 : ℚ) else 0)
    + (if 0 < active_agents then (3 / 10 : ℚ) else 0)
    + (if 0 < active_agents then
        (if (stale_agents : ℚ) / (active_agents : ℚ) < 1 / 5 then (1 / 5 : ℚ) else 0)
      else (1 / 5 : ℚ))
    + (if 0 < completions_24h then (1 / 5 : ℚ) else 0)

end GenerateSummary

namespace ArchiveCompleted

/-- The exact module-level imports of archive-completed.py (lines 4-8):
`json`, `sys`, `subprocess`, `argparse`, and `from datetime import ...`.
The name `os` is not among them. -/
def moduleImports : List String :=
  ["json", "sys", "subprocess", "argparse", "datetime"]

/-- Termination of a CPython process running the command:
`exited code structured` for a `sys.exit` path (`structured` being the
single structured result object printed, when there is one), `uncaught e`
for an unhandled exception aborting the process with a traceback. -/
inductive PyResult where
  | exited (code : Nat) (structured : Option String)
  | uncaught (exception : String)
deriving DecidableEq, Repr

/-- The token variables `main` checks (archive-completed.py lines
351-354). -/
def tokenVars : List String := ["GH_TOKEN", "GITHUB_TOKEN", "CONDUCTOR_GITHUB_TOKEN"]

/-- `main()` of archive-completed.py (lines 330-365): after argument
parsing it prints a banner, constructs `TaskArchiver`, and evaluates
`any(os.environ.get(var) for var in [...])`. Evaluating the name `os`
resolves it against the module's bindings; `os` was never imported, so
this raises `NameError` before anything else runs. The (dead) branch in
which `os` were bound models the rest of the flow: exit 1 with only a
plain-text message when no token is set, otherwise run the archival
sweep and exit 0 — no structured result object is printed on any path. -/
def archive_main (env : List (String × String)) (_maxAgeDays : Nat)
    (_dryRun : Bool) (_skipMetrics : Bool) : PyResult :=
  if moduleImports.contains "os" then
    if tokenVars.any (fun v => (env.lookup v).isSome) then
      PyResult.exited 0 none
    else
      PyResult.exited 1 none
  else
    PyResult.uncaught "NameError: name os is not defined"

end ArchiveCompleted

/-! ### Helper lemmas -/

namespace TaskClaim

theorem priorityScore_ge (p : String) : 5 ≤ priorityScore p := by
  unfold priorityScore
  split_ifs <;> norm_num

theorem effortScore_ge (e : String) : 5 ≤ effortScore e := by
  unfold effortScore
  split_ifs <;> norm_num

theorem scoreTask_ge (role : String) (t : Task) : 10 ≤ scoreTask role t := by
  have h1 := priorityScore_ge t.priority
  have h2 := effortScore_ge t.estimated_effort
  unfold scoreTask
  omega

end TaskClaim

/-- The keywords whose absence claim C5's scenario presupposes: the
affinity keywords of the `security` role and the init-task keywords. -/
def c5_keywords : List String :=
  ["auth", "authentication", "vulnerability", "audit", "init", "initialization",
   "discovery"]

/-- A text is clean when none of `c5_keywords` occurs in its lowercased
form. -/
def cleanText (s : String) : Bool :=
  c5_keywords.all (fun k => !(containsKw (pyLower s) k))

theorem cleanText_spec {s : String} (h : cleanText s = true) :
    ∀ k ∈ c5_keywords, containsKw (pyLower s) k = false := by
  intro k hk
  have := List.all_eq_true.mp h k hk
  simpa using this

namespace TaskClaim

theorem score_security_A {i tA dA : String} (h1 : cleanText tA = true)
    (h2 : cleanText dA = true) :
    scoreTask "security" ⟨i, tA, dA, [], "small", "high"⟩ = 45 := by
  have f := cleanText_spec h1
  have g := cleanText_spec h2
  simp only [scoreTask, affinityScore, role_affinities, priorityScore, effortScore]
  simp [f "auth" (by simp [c5_keywords]), f "authentication" (by simp [c5_keywords]),
    f "vulnerability" (by simp [c5_keywords]), f "audit" (by simp [c5_keywords]),
    f "init" (by simp [c5_keywords]), f "initialization" (by simp [c5_keywords]),
    f "discovery" (by simp [c5_keywords]),
    g "auth" (by simp [c5_keywords]), g "authentication" (by simp [c5_keywords]),
    g "vulnerability" (by simp [c5_keywords]), g "audit" (by simp [c5_keywords])]

theorem score_security_B {i tB dB : String} (h1 : cleanText tB = true)
    (h2 : cleanText dB = true) :
    scoreTask "security" ⟨i, tB, dB, ["security"], "large", "critical"⟩ = 135 := by
  have f := cleanText_spec h1
  have g := cleanText_spec h2
  simp only [scoreTask, affinityScore, role_affinities, priorityScore, effortScore]
  simp [f "auth" (by simp [c5_keywords]), f "authentication" (by simp [c5_keywords]),
    f "vulnerability" (by simp [c5_keywords]), f "audit" (by simp [c5_keywords]),
    f "init" (by simp [c5_keywords]), f "initialization" (by simp [c5_keywords]),
    f "discovery" (by simp [c5_keywords]),
    g "auth" (by simp [c5_keywords]), g "authentication" (by simp [c5_keywords]),
    g "vulnerability" (by simp [c5_keywords]), g "audit" (by simp [c5_keywords])]

theorem score_dev_A {i tA dA : String} (h1 : cleanText tA = true) :
    scoreTask "dev" ⟨i, tA, dA, [], "small", "high"⟩ = 85 := by
  have f := cleanText_spec h1
  simp only [scoreTask, affinityScore, role_affinities, priorityScore, effortScore]
  simp [f "init" (by simp [c5_keywords]), f "initialization" (by simp [c5_keywords]),
    f "discovery" (by simp [c5_keywords])]

theorem score_dev_B {i tB dB : String} (h1 : cleanText tB = true) :
    scoreTask "dev" ⟨i, tB, dB, ["security"], "large", "critical"⟩ = 35 := by
  have f := cleanText_spec h1
  simp only [scoreTask, affinityScore, role_affinities, priorityScore, effortScore]
  simp [f "init" (by simp [c5_keywords]), f "initialization" (by simp [c5_keywords]),
    f "discovery" (by simp [c5_keywords])]

end TaskClaim

namespace StaleCleaner

theorem markerTimes_cons_marker {c : GComment} (h : hasActivityMarker c.body = true)
    (cs : List GComment) : markerTimes (c :: cs) = c.createdAt :: markerTimes cs := by
  simp [markerTimes, List.filter_cons, h]

theorem markerTimes_cons_other {c : GComment} (h : hasActivityMarker c.body = false)
    (cs : List GComment) : markerTimes (c :: cs) = markerTimes cs := by
  simp [markerTimes, List.filter_cons, h]

theorem foldl_scan_some (cs : List GComment) (t : Int) (ag : Option String) :
    (cs.foldl scanComment ⟨some t, ag⟩).latest =
      some ((markerTimes cs).foldl max t) := by
  induction cs generalizing t ag with
  | nil => rfl
  | cons c cs ih =>
    by_cases h : hasActivityMarker c.body
    · rw [List.foldl_cons, markerTimes_cons_marker h, List.foldl_cons]
      by_cases hgt : c.createdAt > t
      · have hstep : scanComment ⟨some t, ag⟩ c =
            ⟨some c.createdAt,
              match c.agentMeta with | some a => some a | none => ag⟩ := by
          simp [scanComment, h, hgt]
        rw [hstep, ih, max_eq_right hgt.le]
      · have hstep : scanComment ⟨some t, ag⟩ c = ⟨some t, ag⟩ := by
          simp [scanComment, h, hgt]
        rw [hstep, ih, max_eq_left (not_lt.mp hgt)]
    · rw [List.foldl_cons, markerTimes_cons_other (Bool.not_eq_true _ ▸ h) cs]
      have hstep : scanComment ⟨some t, ag⟩ c = ⟨some t, ag⟩ := by
        simp [scanComment, h]
      rw [hstep, ih]

theorem foldl_scan_none (cs : List GComment) (ag : Option String) :
    (cs.foldl scanComment ⟨none, ag⟩).latest = (markerTimes cs).max? := by
  induction cs with
  | nil => rfl
  | cons c cs ih =>
    by_cases h : hasActivityMarker c.body
    · have hstep : scanComment ⟨none, ag⟩ c =
          ⟨some c.createdAt,
            match c.agentMeta with | some a => some a | none => ag⟩ := by
        simp [scanComment, h]
      rw [List.foldl_cons, hstep, foldl_scan_some, markerTimes_cons_marker h]
      rfl
    · have hstep : scanComment ⟨none, ag⟩ c = ⟨none, ag⟩ := by
        simp [scanComment, h]
      rw [List.foldl_cons, hstep, ih, markerTimes_cons_other (Bool.not_eq_true _ ▸ h)]

theorem check_eq_of_lastActivity_some {cs : List GComment} {t : Int} (now : Int)
    (m : Nat) (h : lastActivity cs = some t) :
    check_issue_staleness cs now m =
      (decide (now - t > (m : Int) * 60), some t, agentInfo cs) := by
  have hl : (cs.foldl scanComment ⟨none, none⟩).latest = some t := by
    rw [foldl_scan_none]
    exact h
  unfold check_issue_staleness agentInfo
  rcases hfold : cs.foldl scanComment ⟨none, none⟩ with ⟨lat, ag⟩
  rw [hfold] at hl
  simp only at hl
  subst hl
  rfl

theorem check_eq_of_lastActivity_none {cs : List GComment} (now : Int) (m : Nat)
    (h : lastActivity cs = none) :
    check_issue_staleness cs now m = (true, none, none) := by
  have hl : (cs.foldl scanComment ⟨none, none⟩).latest = none := by
    rw [foldl_scan_none]
    exact h
  unfold check_issue_staleness
  rcases hfold : cs.foldl scanComment ⟨none, none⟩ with ⟨lat, ag⟩
  rw [hfold] at hl
  simp only at hl
  subst hl
  rfl

end StaleCleaner

namespace LocalBackend

theorem findClaimable_decomp {role : String} {st : ConductorState} :
    ∀ {l : List LTask} {c : LTask} {rest : List LTask},
      findClaimable role st l = some (c, rest) →
      ∃ l₁ l₂, l = l₁ ++ c :: l₂ ∧ rest = l₁ ++ l₂ ∧
        has_file_conflicts c st = false := by
  intro l
  induction l with
  | nil => intro c rest h; simp [findClaimable] at h
  | cons t ts ih =>
    intro c rest h
    simp only [findClaimable] at h
    by_cases hc : ((t.required_skills.isEmpty || t.required_skills.contains role)
        && !(has_file_conflicts t st)) = true
    · rw [if_pos hc] at h
      injection h with h'
      injection h' with h1 h2
      subst h1
      subst h2
      refine ⟨[], ts, rfl, rfl, ?_⟩
      simp only [Bool.and_eq_true, Bool.not_eq_true'] at hc
      exact hc.2
    · rw [if_neg hc] at h
      cases hrec : findClaimable role st ts with
      | none => rw [hrec] at h; cases h
      | some pr =>
        obtain ⟨c', rest'⟩ := pr
        rw [hrec] at h
        injection h with h'
        injection h' with h1 h2
        subst h1
        subst h2
        obtain ⟨l₁, l₂, hl, hr, hcf⟩ := ih hrec
        exact ⟨t :: l₁, l₂, by simp [hl], by simp [hr], hcf⟩

theorem mem_dictInsert {m : List (String × WorkEntry)} {k : String} {v : WorkEntry}
    {p : String × WorkEntry} (hp : p ∈ dictInsert m k v) : p = (k, v) ∨ p ∈ m := by
  induction m with
  | nil => simpa [dictInsert] using hp
  | cons q qs ih =>
    unfold dictInsert at hp
    by_cases hq : q.1 = k
    · rw [if_pos hq] at hp
      rcases List.mem_cons.mp hp with h | h
      · exact Or.inl h
      · exact Or.inr (List.mem_cons_of_mem _ h)
    · rw [if_neg hq] at hp
      rcases List.mem_cons.mp hp with h | h
      · exact Or.inr (h ▸ List.mem_cons_self _ _)
      · rcases ih h with h' | h'
        · exact Or.inl h'
        · exact Or.inr (List.mem_cons_of_mem _ h')

theorem pairwise_dictInsert {R : (String × WorkEntry) → (String × WorkEntry) → Prop}
    {m : List (String × WorkEntry)} {k : String} {v : WorkEntry}
    (hall : ∀ p ∈ m, R (k, v) p ∧ R p (k, v)) (hm : m.Pairwise R) :
    (dictInsert m k v).Pairwise R := by
  induction m with
  | nil => simp [dictInsert]
  | cons q qs ih =>
    rcases List.pairwise_cons.mp hm with ⟨hq_rest, hqs⟩
    unfold dictInsert
    by_cases hq : q.1 = k
    · rw [if_pos hq]
      refine List.pairwise_cons.mpr ⟨?_, hqs⟩
      intro b hb
      exact (hall b (List.mem_cons_of_mem _ hb)).1
    · rw [if_neg hq]
      refine List.pairwise_cons.mpr
        ⟨?_, ih (fun p hp => hall p (List.mem_cons_of_mem _ hp)) hqs⟩
      intro b hb
      rcases mem_dictInsert hb with rfl | hbm
      · exact (hall q (List.mem_cons_self _ _)).2
      · exact hq_rest b hbm

theorem conflicts_spec {c : LTask} {st : ConductorState}
    (h : has_file_conflicts c st = false) :
    ∀ p ∈ st.active_work, ∀ f ∈ c.files_locked, f ∉ p.2.files_locked := by
  intro p hp f hf hfp
  unfold has_file_conflicts at h
  by_cases he : c.files_locked.isEmpty
  · rw [List.isEmpty_iff] at he
    rw [he] at hf
    simp at hf
  · rw [if_neg he] at h
    rw [List.any_eq_false] at h
    have h2 := h p hp
    apply h2
    rw [List.any_eq_true]
    exact ⟨f, hf, by simpa using hfp⟩

end LocalBackend

/-! ### The claims -/

/-- C10: for every task and role the matcher's score is at least 10 (the
priority and effort terms each contribute at least 5, defaults included),
so the `score > 0` filter keeps every task and `find_suitable_task`
returns a candidate exactly when the pool is non-empty. -/
theorem c10_score_positive :
    (∀ role t, 10 ≤ TaskClaim.scoreTask role t) ∧
    (∀ tasks role, TaskClaim.find_suitable_task tasks role = none ↔ tasks = []) := by
  refine ⟨TaskClaim.scoreTask_ge, ?_⟩
  intro tasks role
  cases tasks with
  | nil => simp [TaskClaim.find_suitable_task]
  | cons t ts =>
    have hpos : 0 < TaskClaim.scoreTask role t :=
      lt_of_lt_of_le (by norm_num) (TaskClaim.scoreTask_ge role t)
    simp [TaskClaim.find_suitable_task, List.filter_cons, hpos, TaskClaim.pickFirstMax]

/-- C8 (code evaluation): every invocation of the archive command's
`main` aborts with an unhandled `NameError` — the module uses
`os.environ` without ever importing `os` — so no structured result
object is emitted on any input. -/
theorem c8_archive_name_error (env : List (String × String)) (maxAgeDays : Nat)
    (dryRun skipMetrics : Bool) :
    ArchiveCompleted.archive_main env maxAgeDays dryRun skipMetrics =
      ArchiveCompleted.PyResult.uncaught "NameError: name os is not defined" := rfl

/-- C6 counterexample: on metrics with one available task, one active
agent, one stale agent and no completions, `collect_metrics` (equal 1/4
weights) scores 3/4 while `calculate_health_score` scores 3/5, which is
not a multiple of 1/4 — the two health scores are not both the equal-
weight sum the claim describes. -/
theorem c6_counterexample :
    UpdateStatus.health_score 1 1 1 0 = 3 / 4 ∧
    GenerateSummary.calculate_health_score 1 1 1 0 = 3 / 5 ∧
    (3 / 5 : ℚ) ≠ 3 / 4 := by
  refine ⟨?_, ?_, by norm_num⟩
  · norm_num [UpdateStatus.health_score, UpdateStatus.scoreOfSignals,
      UpdateStatus.healthSignals, UpdateStatus.b2q]
  · norm_num [GenerateSummary.calculate_health_score]

/-- C6 amended: `collect_metrics` weights its four signals equally at
1/4 — its score is (number of true signals)/4, lies in [0,1], is 1
exactly when all four hold and 0 exactly when none hold — while
`calculate_health_score` in generate-summary.py uses weights 3/10, 3/10,
1/5, 1/5 (with a 20% stale threshold granted vacuously when no agent is
active, and recent activity counting only completions); its score also
lies in [0,1] and is 1 exactly when all four of its conditions hold, but
it is never 0: an empty agent set grants the stale-ratio weight, so the
score is bounded below by 1/5. -/
theorem c6_amended :
    (∀ s, UpdateStatus.scoreOfSignals s = (UpdateStatus.signalCount s : ℚ) / 4) ∧
    (∀ a b c d, 0 ≤ UpdateStatus.health_score a b c d ∧
      UpdateStatus.health_score a b c d ≤ 1) ∧
    (∀ a b c d, UpdateStatus.health_score a b c d = 1 ↔
      UpdateStatus.signalCount (UpdateStatus.healthSignals a b c d) = 4) ∧
    (∀ a b c d, UpdateStatus.health_score a b c d = 0 ↔
      UpdateStatus.signalCount (UpdateStatus.healthSignals a b c d) = 0) ∧
    (∀ a b c d, 0 ≤ GenerateSummary.calculate_health_score a b c d ∧
      GenerateSummary.calculate_health_score a b c d ≤ 1) ∧
    (∀ a b c d, GenerateSummary.calculate_health_score a b c d = 1 ↔
      (0 < a ∧ 0 < b ∧ (c : ℚ) / (b : ℚ) < 1 / 5 ∧ 0 < d)) ∧
    (∀ a b c d, (1 : ℚ) / 5 ≤ GenerateSummary.calculate_health_score a b c d) := by
  have hsig : ∀ s, UpdateStatus.scoreOfSignals s = (UpdateStatus.signalCount s : ℚ) / 4 := by
    intro s
    rcases s with ⟨w, x, y, z⟩
    cases w <;> cases x <;> cases y <;> cases z <;>
      norm_num [UpdateStatus.scoreOfSignals, UpdateStatus.signalCount, UpdateStatus.b2q]
  have hcnt : ∀ s, UpdateStatus.signalCount s ≤ 4 := by
    intro s
    rcases s with ⟨w, x, y, z⟩
    cases w <;> cases x <;> cases y <;> cases z <;>
      norm_num [UpdateStatus.signalCount]
  refine ⟨hsig, ?_, ?_, ?_, ?_, ?_, ?_⟩
  · intro a b c d
    unfold UpdateStatus.health_score
    rw [hsig]
    have h := hcnt (UpdateStatus.healthSignals a b c d)
    constructor
    · positivity
    · rw [div_le_one (by norm_num)]
      exact_mod_cast h
  · intro a b c d
    unfold UpdateStatus.health_score
    rw [hsig]
    have h := hcnt (UpdateStatus.healthSignals a b c d)
    rw [div_eq_one_iff_eq (by norm_num)]
    constructor
    · intro hh
      exact_mod_cast hh
    · intro hh
      exact_mod_cast congrArg (Nat.cast : Nat → ℚ) hh
  · intro a b c d
    unfold UpdateStatus.health_score
    rw [hsig]
    rw [div_eq_zero_iff]
    norm_num
  · intro a b c d
    unfold GenerateSummary.calculate_health_score
    split_ifs <;> norm_num
  · intro a b c d
    unfold GenerateSummary.calculate_health_score
    split_ifs <;> (try norm_num at *) <;> intros <;>
      first
      | tauto
      | omega
      | linarith
  · intro a b c d
    unfold GenerateSummary.calculate_health_score
    split_ifs <;> norm_num

/-- C2 counterexample: with a rival claimant already recorded on the
issue, the remote claim flow still reports `claimed` with exit code 0 and
merely appends itself to the assignee list — it never voids its claim or
returns the task, refuting the mandatory post-claim verification. -/
theorem c2_counterexample :
    (TaskClaim.mainAuto [⟨"7", "fix bug", "", [], "medium", "medium"⟩] "dev"
        ⟨"7", ["rival"], ["conductor:task"], []⟩ (fun _ => true) "u1" 5).1 =
      ⟨"claimed", 0⟩ ∧
    (TaskClaim.mainAuto [⟨"7", "fix bug", "", [], "medium", "medium"⟩] "dev"
        ⟨"7", ["rival"], ["conductor:task"], []⟩ (fun _ => true) "u1" 5).2.assignees =
      ["rival", "@me"] := by
  constructor <;> rfl

/-- C2 amended: the remote claim operation performs no post-claim
verification at all — `claim_task` issues only the three writing commands
(assign, metadata comment, in-progress label), never a read, and when
they succeed the command reports `claimed` with exit code 0 regardless of
the store's prior assignees, to which `@me` is merely appended. -/
theorem c2_amended (pool : List TaskClaim.Task) (role : String)
    (store : TaskClaim.RemoteIssue) (uuidSuffix : String) (now : Int)
    (t : TaskClaim.Task) (hfind : TaskClaim.find_suitable_task pool role = some t)
    (hnum : store.number = t.id) :
    (∀ c ∈ (TaskClaim.claim_task_cmds t role uuidSuffix now).1, c.isRead = false) ∧
    (TaskClaim.mainAuto pool role store (fun _ => true) uuidSuffix now).1 =
      ⟨"claimed", 0⟩ ∧
    (TaskClaim.mainAuto pool role store (fun _ => true) uuidSuffix now).2.assignees =
      store.assignees ++ ["@me"] := by
  refine ⟨?_, ?_, ?_⟩
  · intro c hc
    simp only [TaskClaim.claim_task_cmds, List.mem_cons, List.not_mem_nil,
      or_false] at hc
    rcases hc with h | h | h <;> subst h <;> rfl
  · simp [TaskClaim.mainAuto, hfind, TaskClaim.claim_task_cmds, TaskClaim.runCmds]
  · simp [TaskClaim.mainAuto, hfind, TaskClaim.claim_task_cmds, TaskClaim.runCmds,
      TaskClaim.applyCmd, hnum]

/-- C2 witness: the amended theorem applied to the rival-claimant
scenario. -/
theorem c2_amended_witness :
    (∀ c ∈ (TaskClaim.claim_task_cmds ⟨"7", "fix bug", "", [], "medium", "medium"⟩
        "dev" "u1" 5).1, c.isRead = false) ∧
    (TaskClaim.mainAuto [⟨"7", "fix bug", "", [], "medium", "medium"⟩] "dev"
        ⟨"7", ["rival"], ["conductor:task"], []⟩ (fun _ => true) "u1" 5).1 =
      ⟨"claimed", 0⟩ ∧
    (TaskClaim.mainAuto [⟨"7", "fix bug", "", [], "medium", "medium"⟩] "dev"
        ⟨"7", ["rival"], ["conductor:task"], []⟩ (fun _ => true) "u1" 5).2.assignees =
      ["rival"] ++ ["@me"] :=
  c2_amended [⟨"7", "fix bug", "", [], "medium", "medium"⟩] "dev"
    ⟨"7", ["rival"], ["conductor:task"], []⟩ "u1" 5
    ⟨"7", "fix bug", "", [], "medium", "medium"⟩ (by rfl) (by rfl)

/-- C7 counterexample: with one matching task in the pool and the store
reporting a conflict on the very first claiming command, the claim
command reports a hard `ERROR` with exit code 1 — it neither retries nor
reports the `IDLE` "no suitable task" outcome. -/
theorem c7_counterexample :
    TaskClaim.mainAuto [⟨"7", "fix bug", "", [], "medium", "medium"⟩] "dev"
        ⟨"7", [], ["conductor:task"], []⟩ (fun _ => false) "u1" 5 =
      (⟨"ERROR", 1⟩, ⟨"7", [], ["conductor:task"], []⟩) ∧
    (⟨"ERROR", 1⟩ : TaskClaim.CliResult) ≠ ⟨"IDLE", 0⟩ := by
  constructor
  · rfl
  · simp

/-- C7 amended: the claim command does not retry on a store conflict.
`run_gh_command` exits the process with a structured `ERROR` and code 1
on the first failing `gh` command, so a conflict on the assignment step
surfaces immediately as a hard error, leaving the store untouched; the
`IDLE` outcome arises only when the matcher finds no task. -/
theorem c7_amended (pool : List TaskClaim.Task) (role : String)
    (store : TaskClaim.RemoteIssue) (uuidSuffix : String) (now : Int)
    (t : TaskClaim.Task) (hfind : TaskClaim.find_suitable_task pool role = some t)
    (ok : TaskClaim.GhCmd → Bool)
    (hconflict : ok (TaskClaim.GhCmd.addAssignee t.id "@me") = false) :
    TaskClaim.mainAuto pool role store ok uuidSuffix now = (⟨"ERROR", 1⟩, store) := by
  simp [TaskClaim.mainAuto, hfind, TaskClaim.claim_task_cmds, TaskClaim.runCmds,
    hconflict]

/-- C7 witness: the amended theorem applied to the single-task pool with
a conflicting assignment. -/
theorem c7_amended_witness :
    TaskClaim.mainAuto [⟨"7", "fix bug", "", [], "medium", "medium"⟩] "dev"
        ⟨"7", [], ["conductor:task"], []⟩ (fun _ => false) "u2" 5 =
      (⟨"ERROR", 1⟩, ⟨"7", [], ["conductor:task"], []⟩) :=
  c7_amended [⟨"7", "fix bug", "", [], "medium", "medium"⟩] "dev"
    ⟨"7", [], ["conductor:task"], []⟩ "u2" 5
    ⟨"7", "fix bug", "", [], "medium", "medium"⟩ (by rfl) (fun _ => false) (by rfl)

/-- C3: the Liveness Monitor classifies a claim as stale iff
`now - last_activity` strictly exceeds the configured timeout, whose
default is 30 minutes; when no activity marker is found among the
inspected comments the claim is classified stale immediately. -/
theorem c3_staleness :
    StaleCleaner.defaultTimeoutMinutes = 30 ∧
    (∀ cs now m t, StaleCleaner.lastActivity cs = some t →
      ((StaleCleaner.check_issue_staleness cs now m).1 = true ↔
        now - t > (m : Int) * 60)) ∧
    (∀ cs now m, StaleCleaner.lastActivity cs = none →
      (StaleCleaner.check_issue_staleness cs now m).1 = true) := by
  refine ⟨rfl, ?_, ?_⟩
  · intro cs now m t h
    rw [StaleCleaner.check_eq_of_lastActivity_some now m h]
    simp
  · intro cs now m h
    rw [StaleCleaner.check_eq_of_lastActivity_none now m h]

/-- C3 witness: one heartbeat comment at time 3000, inspected at time
3600 with the default 30-minute timeout: 600 seconds elapsed does not
exceed 1800, hence not stale. -/
theorem c3_staleness_witness :
    (StaleCleaner.check_issue_staleness [⟨"Heartbeat", 3000, none⟩] 3600 30).1 = true ↔
      (3600 - 3000 : Int) > (30 : Int) * 60 :=
  c3_staleness.2.1 [⟨"Heartbeat", 3000, none⟩] 3600 30 3000 (by decide)

/-- C4: the stale sweep never mutates a claim whose last activity lies
within the timeout — `clean_stale_issue` returns `False` with no
unassignment, label removal or comment — and for a stale claim it
removes every assignee, removes the in-progress label, and posts a
notice recording the last-known activity time and the agent info. -/
theorem c4_sweep_frame :
    (∀ iss now (m : Nat) t, StaleCleaner.lastActivity iss.comments = some t →
      ¬(now - t > (m : Int) * 60) →
      StaleCleaner.clean_stale_issue iss now m = (false, [])) ∧
    (∀ iss now (m : Nat) t, StaleCleaner.lastActivity iss.comments = some t →
      now - t > (m : Int) * 60 →
      StaleCleaner.clean_stale_issue iss now m =
        (true,
          iss.assignees.map (StaleCleaner.CleanupEffect.removeAssignee iss.number) ++
            [StaleCleaner.CleanupEffect.removeLabel iss.number "conductor:in-progress",
             StaleCleaner.CleanupEffect.postNotice iss.number (some t)
               (StaleCleaner.agentInfo iss.comments)])) := by
  constructor
  · intro iss now m t h hfresh
    unfold StaleCleaner.clean_stale_issue
    rw [StaleCleaner.check_eq_of_lastActivity_some now m h]
    simp [hfresh]
  · intro iss now m t h hstale
    unfold StaleCleaner.clean_stale_issue
    rw [StaleCleaner.check_eq_of_lastActivity_some now m h]
    simp [hstale]

/-- C4 witness: a claim whose only heartbeat is 9900 seconds old against
a 30-minute timeout is cleaned — both assignees unassigned, the label
removed, and the notice posted with the activity time and agent id. -/
theorem c4_sweep_frame_witness :
    StaleCleaner.clean_stale_issue
        ⟨7, "t", ["alice", "bob"], [⟨"Heartbeat", 100, some "dev_1"⟩]⟩ 10000 30 =
      (true,
        ["alice", "bob"].map (StaleCleaner.CleanupEffect.removeAssignee 7) ++
          [StaleCleaner.CleanupEffect.removeLabel 7 "conductor:in-progress",
           StaleCleaner.CleanupEffect.postNotice 7 (some 100)
             (StaleCleaner.agentInfo [⟨"Heartbeat", 100, some "dev_1"⟩])]) :=
  c4_sweep_frame.2 ⟨7, "t", ["alice", "bob"], [⟨"Heartbeat", 100, some "dev_1"⟩]⟩
    10000 30 100 (by decide) (by decide)

/-- C5: in a pool of exactly Task A (no required skills, high priority,
small effort) and Task B (requires `security`, critical priority, large
effort), with neither title nor description containing affinity or init
keywords, the matcher selects B for role `security` (the skill-match
bonus dominates: 135 vs 45) and A for role `dev` (85 vs 35). -/
theorem c5_matcher_scenario (i j tA dA tB dB : String)
    (h1 : cleanText tA = true) (h2 : cleanText dA = true)
    (h3 : cleanText tB = true) (h4 : cleanText dB = true) :
    TaskClaim.find_suitable_task
        [⟨i, tA, dA, [], "small", "high"⟩,
         ⟨j, tB, dB, ["security"], "large", "critical"⟩] "security" =
      some ⟨j, tB, dB, ["security"], "large", "critical"⟩ ∧
    TaskClaim.find_suitable_task
        [⟨i, tA, dA, [], "small", "high"⟩,
         ⟨j, tB, dB, ["security"], "large", "critical"⟩] "dev" =
      some ⟨i, tA, dA, [], "small", "high"⟩ := by
  constructor
  · simp [TaskClaim.find_suitable_task, List.filter_cons,
      TaskClaim.score_security_A h1 h2, TaskClaim.score_security_B h3 h4,
      TaskClaim.pickFirstMax]
  · simp [TaskClaim.find_suitable_task, List.filter_cons,
      TaskClaim.score_dev_A h1, TaskClaim.score_dev_B h3,
      TaskClaim.pickFirstMax]

/-- C5 witness: the scenario at concrete keyword-free titles. -/
theorem c5_matcher_scenario_witness :
    TaskClaim.find_suitable_task
        [⟨"1", "task a", "", [], "small", "high"⟩,
         ⟨"2", "task b", "", ["security"], "large", "critical"⟩] "security" =
      some ⟨"2", "task b", "", ["security"], "large", "critical"⟩ ∧
    TaskClaim.find_suitable_task
        [⟨"1", "task a", "", [], "small", "high"⟩,
         ⟨"2", "task b", "", ["security"], "large", "critical"⟩] "dev" =
      some ⟨"1", "task a", "", [], "small", "high"⟩ :=
  c5_matcher_scenario "1" "2" "task a" "" "task b" ""
    (by decide) (by decide) (by decide) (by decide)

namespace LocalBackend

/-- C1 counterexample: the invariant exactly as claimed is not preserved
when a task id occurs twice in `available_tasks`: starting from two
copies of task `t1` and no active work — a state satisfying the claimed
precondition — `claim_task` pops one copy into `active_work` while the
other remains available, so `t1` is then referenced both by the active
claim and by the pool. -/
theorem c1_counterexample :
    TaskIdsOK ⟨[⟨"t1", [], []⟩, ⟨"t1", [], []⟩], [], 0, 0⟩ ∧
    ¬TaskIdsOK (claim_task "dev" 0 ⟨[⟨"t1", [], []⟩, ⟨"t1", [], []⟩], [], 0, 0⟩).2 := by
  unfold TaskIdsOK
  exact ⟨by decide, by decide⟩

/-- C1 amended: `claim_task` preserves the at-most-one-claim invariant
provided the starting state additionally has no duplicate task id inside
`available_tasks` itself: no task id is then shared between
`available_tasks` and `active_work`, no task id occurs in two distinct
`active_work` entries, and `available_tasks` stays duplicate-free — the
claimed task being removed from the pool in the same locked mutation
that inserts its single `active_work` entry. -/
theorem c1_claim_preserves_uniqueness (role : String) (now : Int)
    (st : ConductorState) (hinv : TaskIdsOK st) (hnd : AvailNodup st) :
    TaskIdsOK (claim_task role now st).2 ∧ AvailNodup (claim_task role now st).2 := by
  cases hf : findClaimable role st st.available_tasks with
  | none =>
    have h2 : (claim_task role now st).2 = st := by
      simp [claim_task, hf]
    rw [h2]
    exact ⟨hinv, hnd⟩
  | some pr =>
    obtain ⟨c, rest⟩ := pr
    obtain ⟨l₁, l₂, hl, hr, hcf⟩ := findClaimable_decomp hf
    have h2 : (claim_task role now st).2.available_tasks = rest := by
      simp [claim_task, hf]
    have h3 : (claim_task role now st).2.active_work =
        dictInsert st.active_work (mkAgentId role now)
          ⟨c, "in_progress", now, now, c.files_locked⟩ := by
      simp [claim_task, hf]
    have hcmem : c ∈ st.available_tasks := by
      rw [hl]
      exact List.mem_append_right _ (List.mem_cons_self _ _)
    have hrest_sub : ∀ t ∈ rest, t ∈ st.available_tasks := by
      intro t ht
      rw [hr] at ht
      rw [hl]
      rcases List.mem_append.mp ht with h | h
      · exact List.mem_append_left _ h
      · exact List.mem_append_right _ (List.mem_cons_of_mem _ h)
    have hnd' : ((l₁ ++ c :: l₂).map LTask.id).Nodup := by
      rw [← hl]
      exact hnd
    rw [List.map_append, List.map_cons, List.nodup_middle] at hnd'
    rcases List.nodup_cons.mp hnd' with ⟨hcid_notin, hrest_nodup⟩
    have hrestids : rest.map LTask.id = l₁.map LTask.id ++ l₂.map LTask.id := by
      rw [hr, List.map_append]
    refine ⟨⟨?_, ?_⟩, ?_⟩
    · rw [h2, h3]
      intro t ht p hp
      rcases mem_dictInsert hp with rfl | hpm
      · intro he
        apply hcid_notin
        have hmem : t.id ∈ rest.map LTask.id := List.mem_map_of_mem _ ht
        rw [hrestids] at hmem
        rw [he] at hmem
        exact hmem
      · exact hinv.1 t (hrest_sub t ht) p hpm
    · rw [h3]
      apply pairwise_dictInsert
      · intro p hp
        have h1 := hinv.1 c hcmem p hp
        exact ⟨h1, fun he => h1 he.symm⟩
      · exact hinv.2
    · rw [AvailNodup, h2, hrestids]
      exact hrest_nodup

/-- C1 witness: the amended theorem applied to a one-task pool next to
one active claim on a different task. -/
theorem c1_claim_preserves_uniqueness_witness :
    TaskIdsOK (claim_task "dev" 3
        ⟨[⟨"a", [], []⟩],
         [("agentX", ⟨⟨"b", [], []⟩, "in_progress", 0, 0, []⟩)], 1, 0⟩).2 ∧
    AvailNodup (claim_task "dev" 3
        ⟨[⟨"a", [], []⟩],
         [("agentX", ⟨⟨"b", [], []⟩, "in_progress", 0, 0, []⟩)], 1, 0⟩).2 :=
  c1_claim_preserves_uniqueness "dev" 3 _
    (by unfold TaskIdsOK; exact ⟨by decide, by decide⟩)
    (by unfold AvailNodup; decide)

/-- C9: on the local-file backend, if the `files_locked` sets of all
`active_work` entries are pairwise disjoint before `claim_task`, they
remain pairwise disjoint afterwards — a task whose locked files
intersect any active claim's locked files is rejected by
`_has_file_conflicts` and never inserted into `active_work`. -/
theorem c9_locked_files_disjoint (role : String) (now : Int)
    (st : ConductorState) (hd : FilesDisjoint st) :
    FilesDisjoint (claim_task role now st).2 := by
  cases hf : findClaimable role st st.available_tasks with
  | none =>
    have h2 : (claim_task role now st).2 = st := by
      simp [claim_task, hf]
    rw [h2]
    exact hd
  | some pr =>
    obtain ⟨c, rest⟩ := pr
    obtain ⟨l₁, l₂, hl, hr, hcf⟩ := findClaimable_decomp hf
    have hdisj := conflicts_spec hcf
    have h3 : (claim_task role now st).2.active_work =
        dictInsert st.active_work (mkAgentId role now)
          ⟨c, "in_progress", now, now, c.files_locked⟩ := by
      simp [claim_task, hf]
    rw [FilesDisjoint, h3]
    apply pairwise_dictInsert
    · intro p hp
      constructor
      · intro f hfc hfp
        exact hdisj p hp f hfc hfp
      · intro f hfp hfc
        exact hdisj p hp f hfc hfp
    · exact hd

/-- C9 witness: claiming a task locking `f1` next to an active claim
locking `f2` keeps the locked sets pairwise disjoint. -/
theorem c9_locked_files_disjoint_witness :
    FilesDisjoint (claim_task "dev" 1
        ⟨[⟨"a", [], ["f1"]⟩],
         [("x", ⟨⟨"b", [], ["f2"]⟩, "in_progress", 0, 0, ["f2"]⟩)], 1, 0⟩).2 :=
  c9_locked_files_disjoint "dev" 1 _ (by unfold FilesDisjoint; decide)

end LocalBackend

end Conductor
